import Mathlib

/-!
Verification development for the traffic-simulation analysis scripts
(three near-duplicate pandas pipelines: `Baseline/analyze_results.py`,
`50-50/analyze_results.py`, `Full electrical fleet/analyze_results.py`).

Modelling conventions:
* pandas/NumPy missing values (`NaN` / `pd.NA`) are `Option.none`;
  arithmetic on missing values propagates `none` exactly as pandas does.
* Python floats are modelled as exact rationals (`ℚ`); every constant in
  the scripts (600.0, 0.20, 1000, 60, 1_000_000) is exactly representable
  and the claims concern exact arithmetic identities, not rounding.
* A DataFrame column read from XML exists iff some element carries the
  attribute; per-element absence of an attribute inside an existing
  column is a `none` cell.
* Python `str.startswith`/substring tests are modelled on the character
  list of the string, matching Python string semantics.
-/

namespace TrafficSim

/-! ## Configuration constants (CONFIG section of the scripts) -/

/-- Constant `SERVICE_TIME_PER_TRUCK_S = 600.0`. -/
def SERVICE_TIME_PER_TRUCK_S : ℚ := 600

/-- Constant `GRID_CO2_KG_PER_KWH = 0.20` (50-50 variant only). -/
def GRID_CO2_KG_PER_KWH : ℚ := 1/5

/-- Set `EV_TYPES` containing only `truck_ev`. -/
def EV_TYPES : List String := ["truck_ev"]

/-- Set `DIESEL_TYPES` containing only `truck_euro6`. -/
def DIESEL_TYPES : List String := ["truck_euro6"]

/-! ## Python string operations, modelled on character lists -/

/-- Python `s.startswith(pre)`. -/
def pyStartswith (s pre : String) : Bool :=
  pre.data.isPrefixOf s.data

/-- Python `pat in s` (substring containment). -/
def pyContainsSub (pat : List Char) : List Char → Bool
  | [] => pat.isEmpty
  | c :: rest => pat.isPrefixOf (c :: rest) || pyContainsSub pat rest

/-- Python `s.lower()` (ASCII case folding, which covers every string the
scripts test). -/
def pyLower (s : String) : String :=
  ⟨s.data.map Char.toLower⟩

/-! ## Classifier (identical in all three scripts) -/

/-- Function `classify_vehicle` from the scripts: id-prefix rules, first match wins. -/
def classify_vehicle (veh_id : String) : String :=
  if pyStartswith veh_id "T_" then "logistics_truck"
  else if pyStartswith veh_id "bgt_" then "background_truck"
  else if pyStartswith veh_id "bgc_" || pyStartswith veh_id "F_" then "background_car"
  else "other"

/-- Function `hub_from_id` from the scripts: ordered id-prefix rules mapping a
logistics truck id to its hub. -/
def hub_from_id (veh_id : String) : String :=
  if pyStartswith veh_id "T_SPAR" then "SPAR"
  else if pyStartswith veh_id "T_UCS" then "UCS"
  else if pyStartswith veh_id "T_TGW" then "TGW"
  else if pyStartswith veh_id "T_ROS2" then "Roswell2"
  else if pyStartswith veh_id "T_ROS34" then "Roswell3&4"
  else "other"

/-! ## Powertrain classification

Two distinct variants exist in the repository.  `pd.isna(vtype)` is
modelled by the argument being `Option.none`. -/

namespace FiftyFifty

/-- Function `powertrain_from_vtype` from `50-50/analyze_results.py`: the substring
fallback tests only `"ev"`. -/
def powertrain_from_vtype (vtype : Option String) : String :=
  match vtype with
  | none => "unknown"
  | some v =>
    if EV_TYPES.contains v then "EV"
    else if DIESEL_TYPES.contains v then "Diesel"
    else if pyContainsSub "ev".data (pyLower v).data then "EV"
    else "Other"

end FiftyFifty

namespace FullFleet

/-- Function `powertrain_from_vtype` from `Full electrical fleet/analyze_results.py`:
the substring fallback tests `"ev"` or `"electric"`. -/
def powertrain_from_vtype (vtype : Option String) : String :=
  match vtype with
  | none => "unknown"
  | some v =>
    if EV_TYPES.contains v then "EV"
    else if DIESEL_TYPES.contains v then "Diesel"
    else if pyContainsSub "ev".data (pyLower v).data
         || pyContainsSub "electric".data (pyLower v).data then "EV"
    else "Other"

end FullFleet

/-- The powertrain map exactly as the specification words it: absent →
`unknown`; exact EV-set membership → `EV`; exact Diesel-set membership →
`Diesel`; else case-insensitive substring `"ev"` or `"electric"` → `EV`;
else `Other`. -/
def powertrainSpec (vtype : Option String) : String :=
  match vtype with
  | none => "unknown"
  | some v =>
    if EV_TYPES.contains v then "EV"
    else if DIESEL_TYPES.contains v then "Diesel"
    else if pyContainsSub "ev".data (pyLower v).data
         || pyContainsSub "electric".data (pyLower v).data then "EV"
    else "Other"

/-- The 50-50 variant's actual fallback, worded the same way but with the
`"ev"` substring test only. -/
def powertrainSpecEvOnly (vtype : Option String) : String :=
  match vtype with
  | none => "unknown"
  | some v =>
    if EV_TYPES.contains v then "EV"
    else if DIESEL_TYPES.contains v then "Diesel"
    else if pyContainsSub "ev".data (pyLower v).data then "EV"
    else "Other"

/-! ## Telemetry Loader

`pd.read_xml(path, xpath=...)` yields one DataFrame row per matched XML
element; a column exists iff some element carries the attribute, and an
element missing an attribute of an existing column yields a `none` cell.
`read_xml` raises when the xpath matches no element at all. -/

/-- Attributes of one `<tripinfo>` element that the scripts use.
`type` models the simulator's alternative attribute name consulted by the
50-50 loader's `trip.get("type", pd.NA)` fallback. -/
structure TripAttrs where
  id : Option String
  vType : Option String
  type : Option String
  routeLength : Option ℚ
  duration : Option ℚ
deriving DecidableEq, Repr

/-- Attributes of one `<emissions>` element that the scripts use. -/
structure EmAttrs where
  CO2_abs : Option ℚ
  fuel_abs : Option ℚ
deriving DecidableEq, Repr

/-- One row of the positional left join `trip.join(em)`. -/
structure JoinedRow where
  id : Option String
  vType : Option String
  routeLength : Option ℚ
  duration : Option ℚ
  CO2_abs : Option ℚ
  fuel_abs : Option ℚ
deriving DecidableEq, Repr

namespace FiftyFifty

/-- Body of the 50-50 loader's join `trip.join(em, how="left")` plus the
column synthesis steps: a positional join by row index — tripinfo row `i`
is paired with emissions row `i` when it exists, and missing/extra
emissions rows are silently tolerated; a wholly absent
`CO2_abs`/`fuel_abs` column is afterwards filled with the constant
`0.0`. -/
def joinedRows (trip : List TripAttrs) (em : List EmAttrs) : List JoinedRow :=
  -- column-existence flags of the two DataFrames
  let hasVType := trip.any (fun t => t.vType.isSome)
  let hasType := trip.any (fun t => t.type.isSome)
  let hasCO2 := em.any (fun e => e.CO2_abs.isSome)
  let hasFuel := em.any (fun e => e.fuel_abs.isSome)
  trip.enum.map fun p =>
    let t := p.2
    let e? := em[p.1]?
    { id := t.id
      -- `trip["vType"] = trip.get("type", pd.NA)` when vType is absent
      vType := if hasVType then t.vType else if hasType then t.type else none
      routeLength := t.routeLength
      duration := t.duration
      -- a wholly absent emissions column is synthesized as 0.0
      CO2_abs := if hasCO2 then e?.bind (fun e => e.CO2_abs) else some 0
      fuel_abs := if hasFuel then e?.bind (fun e => e.fuel_abs) else some 0 }

def load_tripinfo_with_emissions (trip : List TripAttrs) (em : List EmAttrs) :
    Except String (List JoinedRow) :=
  if trip.isEmpty then
    .error "read_xml: xpath .//tripinfo returned no nodes"
  else if !trip.any (fun t => t.id.isSome) then
    .error "tripinfo.xml missing id attribute on tripinfo."
  else if em.isEmpty then
    .error "read_xml: xpath .//emissions returned no nodes"
  else
    .ok (joinedRows trip em)

end FiftyFifty

namespace Baseline

/-- Body of the Baseline loader's `trip.join(em)`: the plain positional
left join by row index, with no column checks or synthesis. -/
def joinedRows (trip : List TripAttrs) (em : List EmAttrs) : List JoinedRow :=
  trip.enum.map fun p =>
    let t := p.2
    let e? := em[p.1]?
    { id := t.id
      vType := t.vType
      routeLength := t.routeLength
      duration := t.duration
      CO2_abs := e?.bind (fun e => e.CO2_abs)
      fuel_abs := e?.bind (fun e => e.fuel_abs) }

/-- Function `load_tripinfo_with_emissions` from `Baseline/analyze_results.py`:
no column checks or synthesis at all, just `trip.join(em)` (a positional
left join by row index). -/
def load_tripinfo_with_emissions (trip : List TripAttrs) (em : List EmAttrs) :
    Except String (List JoinedRow) :=
  if trip.isEmpty then
    .error "read_xml: xpath .//tripinfo returned no nodes"
  else if em.isEmpty then
    .error "read_xml: xpath .//emissions returned no nodes"
  else
    .ok (joinedRows trip em)

end Baseline

/-! ## Option arithmetic mirroring pandas missing-value semantics -/

/-- Division of two possibly-missing series values: `NA` propagates. -/
def optDiv (x y : Option ℚ) : Option ℚ :=
  match x, y with
  | some a, some b => some (a / b)
  | _, _ => none

/-- Model of `Series.replace(0, pd.NA)` applied to one cell. -/
def replaceZeroNA (x : Option ℚ) : Option ℚ :=
  match x with
  | some a => if a = 0 then none else some a
  | none => none

/-- Model of pandas `sum()` with default `min_count=0`: missing values are
skipped, an all-missing (or empty) list sums to `0`. -/
def naSum (xs : List (Option ℚ)) : ℚ :=
  (xs.filterMap id).sum

/-- Model of pandas `sum(min_count=1)`: like `naSum` but an all-missing (or
empty) list yields `NA`. -/
def optSum (xs : List (Option ℚ)) : Option ℚ :=
  let v := xs.filterMap id
  if v.isEmpty then none else some v.sum

/-- Model of pandas `mean()`: missing values are skipped; the mean of an empty or
all-missing list is `NA`. -/
def optMean (xs : List (Option ℚ)) : Option ℚ :=
  let v := xs.filterMap id
  if v.isEmpty then none else some (v.sum / (v.length : ℚ))

/-! ## Optional battery/energy loader (50-50 variant only)

`battery.xml` is read with `pd.read_xml(path, xpath=".//vehicle")`: each
`<vehicle>` element becomes a row whose cells are its XML attributes.
`read_xml` types numeric attribute text as numbers, so a cell is either a
number or leftover text. -/

/-- One raw XML attribute value as pandas materialises it. -/
inductive Attr where
  | num (q : ℚ)
  | str (s : String)
deriving DecidableEq, Repr

/-- One `<vehicle>` element: its attribute list (names are unique within
an element). -/
abbrev BatRow := List (String × Attr)

/-- The battery DataFrame: one row per `<vehicle>` element found anywhere
in the document. -/
abbrev BatteryTable := List BatRow

/-- Cell access: the value of column `c` in row `r`, `none` when the
element lacks the attribute. -/
def getCell (r : BatRow) (c : String) : Option Attr :=
  (r.find? (fun p => decide (p.1 = c))).map Prod.snd

/-- Model of `pd.to_numeric(col, errors="coerce")` on one cell: numbers pass
through, non-numeric text and missing cells coerce to `NA`. -/
def toNumeric (a : Option Attr) : Option ℚ :=
  match a with
  | some (.num q) => some q
  | _ => none

/-- The DataFrame's column list: attribute names in order of first
appearance across the rows. -/
def tableCols (t : BatteryTable) : List String :=
  (t.foldl (fun acc r => acc ++ r.map Prod.fst) []).eraseDups

/-- Energy-bearing column aliases recognised by `load_battery_totals`
(compared case-insensitively). -/
def ENERGY_ALIASES : List String :=
  ["energyconsumed", "totalenergyconsumed", "chargingenergy", "dischargingenergy", "energy"]

/-- Vehicle-identifier column aliases (compared case-insensitively). -/
def ID_ALIASES : List String := ["vehicle", "vehid", "name"]

/-- The recognised energy columns of the table, in column order. -/
def energyColsOf (t : BatteryTable) : List String :=
  (tableCols t).filter (fun c => ENERGY_ALIASES.contains (pyLower c))

/-- The identifier column after harmonisation: `id` itself when present,
else the first column whose lower-cased name is an accepted alias
(`next((c for c in vdf.columns if c.lower() in (...)), None)`). -/
def idColOf (t : BatteryTable) : Option String :=
  if (tableCols t).contains "id" then some "id"
  else (tableCols t).find? (fun c => ID_ALIASES.contains (pyLower c))

/-- The distinct identifier values present in the table (rows lacking the
identifier attribute have a `NaN` key and are dropped by `groupby`). -/
def presentIds (t : BatteryTable) (idc : String) : List Attr :=
  (t.filterMap (fun r => getCell r idc)).dedup

/-- The rows of the `groupby` group keyed by identifier value `k`. -/
def rowsOfId (t : BatteryTable) (idc : String) (k : Attr) : BatteryTable :=
  t.filter (fun r => decide (getCell r idc = some k))

/-- Model of `vdf.groupby("id")[energy_cols].sum(min_count=1)` for one group and
one energy column. -/
def colSumFor (t : BatteryTable) (idc : String) (k : Attr) (c : String) : Option ℚ :=
  optSum ((rowsOfId t idc k).map (fun r => toNumeric (getCell r c)))

/-- The priority selection of the authoritative `energy_Wh` for one
aggregated group row: `energyConsumed`, else `totalEnergyConsumed`, else
`energy` (each tested by exact name against the aggregated columns), else
the row-wise `sum(axis=1, min_count=1)` over all discovered columns. -/
def pickEnergy (ecols : List String) (sums : List (String × Option ℚ)) : Option ℚ :=
  if ecols.contains "energyConsumed" then
    ((sums.find? (fun p => decide (p.1 = "energyConsumed"))).map Prod.snd).join
  else if ecols.contains "totalEnergyConsumed" then
    ((sums.find? (fun p => decide (p.1 = "totalEnergyConsumed"))).map Prod.snd).join
  else if ecols.contains "energy" then
    ((sums.find? (fun p => decide (p.1 = "energy"))).map Prod.snd).join
  else
    optSum (sums.map Prod.snd)

/-- The final `out.groupby("id", as_index=False)["energy_Wh"].sum(min_count=1)`
(pandas additionally sorts the keys; row order is not modelled, no claim
concerns it). -/
def regroupById (out : List (Attr × Option ℚ)) : List (Attr × Option ℚ) :=
  ((out.map Prod.fst).dedup).map fun k =>
    (k, optSum ((out.filter (fun p => decide (p.1 = k))).map Prod.snd))

/-- Function `load_battery_totals` from `50-50/analyze_results.py`.  `none`
models "no data": the file does not exist, the read raised / matched no
`<vehicle>` node (`except: pass`), no identifier column was discoverable,
or no recognised energy column exists.  Otherwise one `(id, energy_Wh)`
row per distinct identifier value. -/
def load_battery_totals (battery : Option BatteryTable) :
    Option (List (Attr × Option ℚ)) :=
  match battery with
  | none => none
  | some t =>
    if t.isEmpty then none
    else
      (idColOf t).bind fun idc =>
        if (energyColsOf t).isEmpty then none
        else
          -- agg = groupby(id)[energy_cols].sum(min_count=1); then the
          -- priority pick per aggregated row; then the final regroup
          some (regroupById
            (((presentIds t idc).map fun k =>
                (k, (energyColsOf t).map (fun c => (c, colSumFor t idc k c)))).map
              fun p => (p.1, pickEnergy (energyColsOf t) p.2)))

/-- The authoritative per-id total exactly as the specification words it:
first sum every discovered energy column per vehicle id across repeated
sub-records (`colSumFor`), then select one total by the priority order
`energyConsumed` > `totalEnergyConsumed` > `energy` > sum of all
discovered columns as last resort. -/
def specEnergyFor (t : BatteryTable) (idc : String) (k : Attr) : Option ℚ :=
  if (energyColsOf t).contains "energyConsumed" then
    colSumFor t idc k "energyConsumed"
  else if (energyColsOf t).contains "totalEnergyConsumed" then
    colSumFor t idc k "totalEnergyConsumed"
  else if (energyColsOf t).contains "energy" then
    colSumFor t idc k "energy"
  else
    optSum ((energyColsOf t).map (colSumFor t idc k))

/-- Concrete battery table used as the C4 witness: one vehicle with two
`energyConsumed` sub-records, another carrying only an `energy` value. -/
def c4Battery : BatteryTable :=
  [[("vehicle", .str "EV1"), ("energyConsumed", .num 100)],
   [("vehicle", .str "EV1"), ("energyConsumed", .num 50)],
   [("vehicle", .str "EV2"), ("energy", .num 7)]]

/-! ## Metric Deriver and main pipeline (50-50 variant) -/

/-- One row of the per-vehicle table after `main` has added every derived
column (50-50 variant). -/
structure DerivedRow where
  id : String
  vehicle_group : String
  distance_km : Option ℚ
  travel_time_min : Option ℚ
  CO2_g : Option ℚ
  CO2_kg : Option ℚ
  fuel_g : Option ℚ
  fuel_kg : Option ℚ
  CO2_kg_per_km : Option ℚ
  fuel_kg_per_km : Option ℚ
  service_time_s : ℚ
  driving_time_min : Option ℚ
  powertrain : String
  energy_kWh : Option ℚ
  indirect_CO2_kg : ℚ
  total_CO2_kg_combined : ℚ
deriving DecidableEq, Repr

/-- The column derivations of `main` in `50-50/analyze_results.py`,
applied to one joined row; `energyWh` is the row's `energy_Wh` value
after the battery merge (`none` when the battery data is unusable or the
id has no battery row). -/
def deriveRow (r : JoinedRow) (energyWh : Option ℚ) : DerivedRow :=
  let id := r.id.getD ""
  let vehicle_group := classify_vehicle id
  let distance_km := r.routeLength.map (fun x => x / 1000)
  let dist_nz := replaceZeroNA distance_km
  let CO2_kg := r.CO2_abs.map (fun x => x / 1000000)
  let fuel_kg := r.fuel_abs.map (fun x => x / 1000000)
  let service_time_s : ℚ :=
    if vehicle_group = "logistics_truck" then SERVICE_TIME_PER_TRUCK_S else 0
  let powertrain := FiftyFifty.powertrain_from_vtype r.vType
  let energy_kWh := energyWh.map (fun x => x / 1000)
  let indirect_CO2_kg : ℚ :=
    if powertrain = "EV" then
      match energy_kWh with
      | some e => e * GRID_CO2_KG_PER_KWH
      | none => 0
    else 0
  { id := id
    vehicle_group := vehicle_group
    distance_km := distance_km
    travel_time_min := r.duration.map (fun x => x / 60)
    CO2_g := r.CO2_abs.map (fun x => x / 1000)
    CO2_kg := CO2_kg
    fuel_g := r.fuel_abs.map (fun x => x / 1000)
    fuel_kg := fuel_kg
    CO2_kg_per_km := optDiv CO2_kg dist_nz
    fuel_kg_per_km := optDiv fuel_kg dist_nz
    service_time_s := service_time_s
    driving_time_min := r.duration.map (fun d => (d - service_time_s) / 60)
    powertrain := powertrain
    energy_kWh := energy_kWh
    indirect_CO2_kg := indirect_CO2_kg
    total_CO2_kg_combined := CO2_kg.getD 0 + indirect_CO2_kg }

/-! ## Aggregator (50-50 variant)

pandas `groupby` partitions the rows by key equality; one output row per
distinct key value present (pandas sorts the output by key; row order is
not modelled, no claim concerns it). -/

/-- One row of `group_summary` (`df.groupby("vehicle_group")`). -/
structure GroupSummaryRow where
  vehicle_group : String
  n_vehicles : Nat
  mean_travel_time_min : Option ℚ
  mean_driving_time_min : Option ℚ
  mean_distance_km : Option ℚ
  tailpipe_CO2_kg : ℚ
  indirect_CO2_kg : ℚ
  combined_CO2_kg : ℚ
  mean_CO2_kg : Option ℚ
  mean_CO2_kg_per_km : Option ℚ
  mean_energy_kWh : Option ℚ
  total_energy_kWh : ℚ
deriving DecidableEq, Repr

/-- Table `group_summary` from `main`: one row per distinct `vehicle_group`
value; `n_vehicles` is `count` of the never-missing `id` column, i.e. the
group's size. -/
def group_summary (df : List DerivedRow) : List GroupSummaryRow :=
  ((df.map (fun r => r.vehicle_group)).dedup).map fun g =>
    let sub := df.filter (fun r => decide (r.vehicle_group = g))
    { vehicle_group := g
      n_vehicles := sub.length
      mean_travel_time_min := optMean (sub.map (fun r => r.travel_time_min))
      mean_driving_time_min := optMean (sub.map (fun r => r.driving_time_min))
      mean_distance_km := optMean (sub.map (fun r => r.distance_km))
      tailpipe_CO2_kg := naSum (sub.map (fun r => r.CO2_kg))
      indirect_CO2_kg := (sub.map (fun r => r.indirect_CO2_kg)).sum
      combined_CO2_kg := (sub.map (fun r => r.total_CO2_kg_combined)).sum
      mean_CO2_kg := optMean (sub.map (fun r => r.CO2_kg))
      mean_CO2_kg_per_km := optMean (sub.map (fun r => r.CO2_kg_per_km))
      mean_energy_kWh := optMean (sub.map (fun r => r.energy_kWh))
      total_energy_kWh := naSum (sub.map (fun r => r.energy_kWh)) }

/-- One row of `gp_pt_summary` (`df.groupby(["vehicle_group", "powertrain"])`). -/
structure GpPtSummaryRow where
  vehicle_group : String
  powertrain : String
  n_vehicles : Nat
  mean_distance_km : Option ℚ
  tailpipe_CO2_kg : ℚ
  indirect_CO2_kg : ℚ
  combined_CO2_kg : ℚ
  total_energy_kWh : ℚ
deriving DecidableEq, Repr

/-- Table `gp_pt_summary` from `main`. -/
def gp_pt_summary (df : List DerivedRow) : List GpPtSummaryRow :=
  ((df.map (fun r => (r.vehicle_group, r.powertrain))).dedup).map fun g =>
    let sub := df.filter (fun r => decide ((r.vehicle_group, r.powertrain) = g))
    { vehicle_group := g.1
      powertrain := g.2
      n_vehicles := sub.length
      mean_distance_km := optMean (sub.map (fun r => r.distance_km))
      tailpipe_CO2_kg := naSum (sub.map (fun r => r.CO2_kg))
      indirect_CO2_kg := (sub.map (fun r => r.indirect_CO2_kg)).sum
      combined_CO2_kg := (sub.map (fun r => r.total_CO2_kg_combined)).sum
      total_energy_kWh := naSum (sub.map (fun r => r.energy_kWh)) }

/-- One per-vehicle row of the logistics-trucks detail table (`trucks`
with the added `hub` column). -/
structure TruckRow extends DerivedRow where
  hub : String
deriving DecidableEq, Repr

/-- One row of `hub_summary` (`trucks.groupby(["hub", "powertrain"])`). -/
structure HubSummaryRow where
  hub : String
  powertrain : String
  n_vehicles : Nat
  mean_travel_time_min : Option ℚ
  mean_driving_time_min : Option ℚ
  mean_distance_km : Option ℚ
  tailpipe_CO2_kg : ℚ
  indirect_CO2_kg : ℚ
  combined_CO2_kg : ℚ
  total_energy_kWh : ℚ
deriving DecidableEq, Repr

/-- Table `hub_summary` from `main`, computed on a nonempty trucks table. -/
def hub_summary (trucks : List TruckRow) : List HubSummaryRow :=
  ((trucks.map (fun r => (r.hub, r.powertrain))).dedup).map fun g =>
    let sub := trucks.filter (fun r => decide ((r.hub, r.powertrain) = g))
    { hub := g.1
      powertrain := g.2
      n_vehicles := sub.length
      mean_travel_time_min := optMean (sub.map (fun r => r.travel_time_min))
      mean_driving_time_min := optMean (sub.map (fun r => r.driving_time_min))
      mean_distance_km := optMean (sub.map (fun r => r.distance_km))
      tailpipe_CO2_kg := naSum (sub.map (fun r => r.CO2_kg))
      indirect_CO2_kg := (sub.map (fun r => r.indirect_CO2_kg)).sum
      combined_CO2_kg := (sub.map (fun r => r.total_CO2_kg_combined)).sum
      total_energy_kWh := naSum (sub.map (fun r => r.energy_kWh)) }

/-- Everything `main` (50-50 variant) writes: the per-vehicle table, the
trucks detail table, the three summaries.  `hub_summary = none` models
the by-hub file being skipped entirely (`if not hub_summary.empty`). -/
structure RunOutput where
  vehicles : List DerivedRow
  trucks : List TruckRow
  groupSummary : List GroupSummaryRow
  gpPtSummary : List GpPtSummaryRow
  hubSummary : Option (List HubSummaryRow)
deriving DecidableEq, Repr

/-- The `energy_Wh` a vehicle row receives from
`df.merge(bat, on="id", how="left")`: the battery total of the matching
id, `none` when the battery data was unusable or no battery row matches.
Battery ids that are not strings never equal a tripinfo id. -/
def energyForId (bat : Option (List (Attr × Option ℚ))) (vid : String) : Option ℚ :=
  match bat with
  | none => none
  | some out =>
    if out.isEmpty then none
    else ((out.find? (fun p => decide (p.1 = Attr.str vid))).map Prod.snd).join

/-- Everything `main` does after the loads succeed: derive the columns,
split off the trucks detail table (with its `hub` column), and build the
three summaries; the by-hub summary is skipped entirely when the trucks
table is empty. -/
def processDf (df : List JoinedRow) (battery : Option BatteryTable) : RunOutput :=
  let bat := load_battery_totals battery
  let rows := df.map fun r => deriveRow r (energyForId bat (r.id.getD ""))
  let trucks := (rows.filter (fun r => decide (r.vehicle_group = "logistics_truck"))).map
    fun r => { toDerivedRow := r, hub := hub_from_id r.id }
  { vehicles := rows
    trucks := trucks
    groupSummary := group_summary rows
    gpPtSummary := gp_pt_summary rows
    hubSummary := if trucks.isEmpty then none else some (hub_summary trucks) }

/-- Function `main` from `50-50/analyze_results.py` as a function from the
parsed source documents to the tables it writes.  An `Except.error` result
models the Python process aborting with an uncaught exception before any
table is written (`df["id"].apply(classify_vehicle)` raises
`AttributeError` on a missing-id cell). -/
def mainRun (trip : List TripAttrs) (em : List EmAttrs)
    (battery : Option BatteryTable) : Except String RunOutput :=
  match FiftyFifty.load_tripinfo_with_emissions trip em with
  | .error e => .error e
  | .ok df =>
    if df.any (fun r => r.id.isNone) then
      .error "AttributeError: float nan has no attribute startswith"
    else
      .ok (processDf df battery)

/-- Two tripinfo records against a single emissions record: a concrete
row-count mismatch between the two mandatory streams. -/
def mismatchTrip : List TripAttrs :=
  [⟨some "T_SPAR_0", some "truck_ev", none, some 4000, some 1200⟩,
   ⟨some "bgc_0", some "car", none, some 2000, some 300⟩]

/-- The single emissions record paired with `mismatchTrip`. -/
def mismatchEm : List EmAttrs := [⟨some 500000, some 200000⟩]

/-- Tripinfo input of the C9 witness: a single logistics truck. -/
def c9Trip : List TripAttrs := [⟨some "T_UCS_1", some "truck_ev", none, some 4000, some 1200⟩]

/-- Emissions input of the C9 witness. -/
def c9Em : List EmAttrs := [⟨some 0, some 0⟩]

/-! ## Small facts about the Option arithmetic -/

/-- Division by a missing divisor is missing. -/
lemma optDiv_none_right (x : Option ℚ) : optDiv x none = none := by
  cases x <;> rfl

/-! ## Claim theorems -/

/-- Claim C2 counterexample: the claim demands `EV` for every type string
whose lower-casing contains `"electric"`, but the 50-50 variant of
`powertrain_from_vtype` tests only the substring `"ev"`, so the input
`"electric"` (not in either configured set, containing `"electric"` but
not `"ev"`) yields `Other` while the specification's map yields `EV`. -/
theorem c2_electric_substring_counterexample :
    FiftyFifty.powertrain_from_vtype (some "electric") = "Other" ∧
    powertrainSpec (some "electric") = "EV" := by
  decide

/-- Claim C2 (amended): the Full-electrical-fleet variant of
`powertrain_from_vtype` realises exactly the claimed map (absent → `unknown`,
EV set → `EV`, Diesel set → `Diesel`, case-insensitive `"ev"`/`"electric"`
substring → `EV`, else `Other`), while the 50-50 variant realises the same
map with the fallback restricted to the `"ev"` substring only; the four
itemized examples hold in both variants. -/
theorem c2_powertrain_characterization :
    (∀ v : Option String, FullFleet.powertrain_from_vtype v = powertrainSpec v) ∧
    (∀ v : Option String, FiftyFifty.powertrain_from_vtype v = powertrainSpecEvOnly v) ∧
    FullFleet.powertrain_from_vtype (some "truck_ev") = "EV" ∧
    FullFleet.powertrain_from_vtype (some "truck_euro6") = "Diesel" ∧
    FullFleet.powertrain_from_vtype (some "hybrid_EV_x") = "EV" ∧
    FullFleet.powertrain_from_vtype none = "unknown" ∧
    FiftyFifty.powertrain_from_vtype (some "truck_ev") = "EV" ∧
    FiftyFifty.powertrain_from_vtype (some "truck_euro6") = "Diesel" ∧
    FiftyFifty.powertrain_from_vtype (some "hybrid_EV_x") = "EV" ∧
    FiftyFifty.powertrain_from_vtype none = "unknown" :=
  ⟨fun _ => rfl, fun _ => rfl, by decide, by decide, by decide, by decide,
   by decide, by decide, by decide, by decide⟩

/-- Claim C3: `hub_from_id` resolves the overlapping `T_ROS*` prefixes
correctly (`T_ROS2_7` → `Roswell2`, `T_ROS34_2` → `Roswell3&4`), and any
id matching none of the five hub prefixes maps to `other`. -/
theorem c3_hub_prefix_matching :
    hub_from_id "T_ROS2_7" = "Roswell2" ∧
    hub_from_id "T_ROS34_2" = "Roswell3&4" ∧
    ∀ s : String,
      ¬(pyStartswith s "T_SPAR" = true ∨ pyStartswith s "T_UCS" = true ∨
        pyStartswith s "T_TGW" = true ∨ pyStartswith s "T_ROS2" = true ∨
        pyStartswith s "T_ROS34" = true) →
      hub_from_id s = "other" := by
  refine ⟨by decide, by decide, ?_⟩
  intro s h
  simp only [not_or] at h
  obtain ⟨h1, h2, h3, h4, h5⟩ := h
  simp [hub_from_id, h1, h2, h3, h4, h5]

/-- Witness for C3 at the concrete unmatched id `bgc_9`. -/
theorem c3_hub_prefix_matching_witness : hub_from_id "bgc_9" = "other" :=
  c3_hub_prefix_matching.2.2 "bgc_9" (by decide)

/-- Claim C5: a vehicle row whose `distance_km` is exactly `0` gets
missing (`NA`) per-distance ratios — no division error, no infinity, no
zero: `replace(0, pd.NA)` turns the divisor into `NA` and `NA` propagates
through the division. -/
theorem c5_zero_distance_ratios_null (r : JoinedRow) (e : Option ℚ)
    (h : (deriveRow r e).distance_km = some 0) :
    (deriveRow r e).CO2_kg_per_km = none ∧ (deriveRow r e).fuel_kg_per_km = none := by
  simp only [deriveRow] at h ⊢
  rw [h]
  have hz : replaceZeroNA (some (0 : ℚ)) = none := by simp [replaceZeroNA]
  rw [hz]
  exact ⟨optDiv_none_right _, optDiv_none_right _⟩

/-- Witness for C5 at a concrete row with `routeLength = 0`. -/
theorem c5_zero_distance_ratios_null_witness :
    (deriveRow ⟨some "bgc_1", none, some 0, some 300, some 1000, some 1000⟩ none).CO2_kg_per_km
      = none ∧
    (deriveRow ⟨some "bgc_1", none, some 0, some 300, some 1000, some 1000⟩ none).fuel_kg_per_km
      = none :=
  c5_zero_distance_ratios_null _ none (by simp [deriveRow])

/-- Claim C6: every row's `service_time_s` is the configured constant
exactly on `logistics_truck` rows and `0` otherwise,
`driving_time_min = (duration_s - service_time_s) / 60` with no clamping
(a logistics truck with duration `300` comes out at `-5` minutes), and a
logistics truck with `duration_s = 1200` and the configured
`service_time_s = 600` has `driving_time_min = 10.0`. -/
theorem c6_driving_time_semantics (r : JoinedRow) (e : Option ℚ) :
    ((deriveRow r e).service_time_s =
      if (deriveRow r e).vehicle_group = "logistics_truck" then SERVICE_TIME_PER_TRUCK_S else 0) ∧
    ((deriveRow r e).driving_time_min =
      r.duration.map (fun d => (d - (deriveRow r e).service_time_s) / 60)) ∧
    (deriveRow ⟨some "T_SPAR_1", some "truck_euro6", some 4000, some 1200, some 0, some 0⟩
      none).driving_time_min = some 10 ∧
    (deriveRow ⟨some "T_SPAR_1", some "truck_euro6", some 4000, some 300, some 0, some 0⟩
      none).driving_time_min = some (-5) := by
  refine ⟨rfl, rfl, ?_, ?_⟩
  · simp [deriveRow, classify_vehicle, pyStartswith, SERVICE_TIME_PER_TRUCK_S]
    norm_num
  · simp [deriveRow, classify_vehicle, pyStartswith, SERVICE_TIME_PER_TRUCK_S]
    norm_num

/-- Claim C7: `indirect_CO2_kg` equals `energy_kWh * grid factor` exactly
when the powertrain is `EV` and the energy figure is known, and is `0` in
every other case (non-EV rows, and EV rows with unknown energy); an EV
with `energy_kWh = 50` and grid factor `0.20` gets `10.0` kg and a Diesel
vehicle with the same energy figure gets `0.0`. -/
theorem c7_indirect_co2_semantics (r : JoinedRow) (e : Option ℚ) :
    ((deriveRow r e).powertrain = "EV" →
      ∀ q : ℚ, (deriveRow r e).energy_kWh = some q →
        (deriveRow r e).indirect_CO2_kg = q * GRID_CO2_KG_PER_KWH) ∧
    (((deriveRow r e).powertrain ≠ "EV" ∨ (deriveRow r e).energy_kWh = none) →
      (deriveRow r e).indirect_CO2_kg = 0) ∧
    (deriveRow ⟨some "T_1", some "truck_ev", some 4000, some 1200, some 0, some 0⟩
      (some 50000)).indirect_CO2_kg = 10 ∧
    (deriveRow ⟨some "T_1", some "truck_euro6", some 4000, some 1200, some 0, some 0⟩
      (some 50000)).indirect_CO2_kg = 0 := by
  refine ⟨?_, ?_, ?_, ?_⟩
  · intro hp q hq
    simp only [deriveRow] at hp hq ⊢
    rw [if_pos hp, hq]
  · intro hor
    simp only [deriveRow] at hor ⊢
    rcases hor with hp | hq
    · rw [if_neg hp]
    · rw [hq]
      split <;> rfl
  · simp [deriveRow, FiftyFifty.powertrain_from_vtype, EV_TYPES, GRID_CO2_KG_PER_KWH]
    norm_num
  · simp [deriveRow, FiftyFifty.powertrain_from_vtype, EV_TYPES, DIESEL_TYPES,
      GRID_CO2_KG_PER_KWH, pyContainsSub, pyLower]

/-- Witness for C7: both implications discharged at concrete rows (an EV
with a known 50000 Wh total, and a Diesel with the same total). -/
theorem c7_indirect_co2_semantics_witness :
    (deriveRow ⟨some "T_1", some "truck_ev", some 4000, some 1200, some 0, some 0⟩
      (some 50000)).indirect_CO2_kg = (50000 / 1000) * GRID_CO2_KG_PER_KWH ∧
    (deriveRow ⟨some "T_1", some "truck_euro6", some 4000, some 1200, some 0, some 0⟩
      (some 50000)).indirect_CO2_kg = 0 :=
  ⟨(c7_indirect_co2_semantics _ (some 50000)).1 (by decide) (50000 / 1000) rfl,
   (c7_indirect_co2_semantics _ (some 50000)).2.1 (Or.inl (by decide))⟩

/-- Claim C10: on every row that is not a logistics truck the service
time is `0`, hence `driving_time_min` coincides with `travel_time_min`
(both are `duration / 60`). -/
theorem c10_non_truck_driving_equals_travel (r : JoinedRow) (e : Option ℚ)
    (h : (deriveRow r e).vehicle_group ≠ "logistics_truck") :
    (deriveRow r e).service_time_s = 0 ∧
    (deriveRow r e).driving_time_min = (deriveRow r e).travel_time_min := by
  constructor
  · simp only [deriveRow] at h ⊢
    exact if_neg h
  · simp only [deriveRow] at h ⊢
    rw [if_neg h]
    cases r.duration <;> simp

/-- Witness for C10 at a concrete background-car row. -/
theorem c10_non_truck_driving_equals_travel_witness :
    (deriveRow ⟨some "bgc_1", none, some 2000, some 300, some 0, some 0⟩ none).service_time_s
      = 0 ∧
    (deriveRow ⟨some "bgc_1", none, some 2000, some 300, some 0, some 0⟩ none).driving_time_min
      = (deriveRow ⟨some "bgc_1", none, some 2000, some 300, some 0, some 0⟩ none).travel_time_min :=
  c10_non_truck_driving_equals_travel _ none (by decide)

/-- Filtering a list by a predicate and by its negation splits its length. -/
lemma length_filter_split {α : Type} (p : α → Bool) (l : List α) :
    (l.filter p).length + (l.filter (fun a => !p a)).length = l.length := by
  induction l with
  | nil => rfl
  | cons a t ih => by_cases h : p a = true <;> simp [List.filter_cons, h] <;> omega

/-- Partition counting: summing, over a duplicate-free key list covering
every row's key, the sizes of the per-key filtered groups recovers the
total row count. -/
lemma sum_filter_lengths_of_keys {α β : Type} [DecidableEq β] (g : α → β) :
    ∀ (ks : List β) (df : List α), ks.Nodup → (∀ r ∈ df, g r ∈ ks) →
      (ks.map (fun k => (df.filter (fun r => decide (g r = k))).length)).sum = df.length := by
  intro ks
  induction ks with
  | nil =>
    intro df _ hmem
    have hdf : df = [] := List.eq_nil_iff_forall_not_mem.mpr fun r hr => by
      simpa using hmem r hr
    simp [hdf]
  | cons k ks ih =>
    intro df hnd hmem
    have hsplit := length_filter_split (fun r => decide (g r = k)) df
    have hk : k ∉ ks := (List.nodup_cons.mp hnd).1
    have hmem2 : ∀ r ∈ df.filter (fun r => !decide (g r = k)), g r ∈ ks := by
      intro r hr
      have hrdf : r ∈ df := List.mem_of_mem_filter hr
      have hne : ¬(g r = k) := by simpa using List.of_mem_filter hr
      have := hmem r hrdf
      simp only [List.mem_cons] at this
      tauto
    have htail :
        (ks.map (fun k2 => (df.filter (fun r => decide (g r = k2))).length)).sum
          = (ks.map (fun k2 =>
              ((df.filter (fun r => !decide (g r = k))).filter
                (fun r => decide (g r = k2))).length)).sum := by
      congr 1
      apply List.map_congr_left
      intro k2 hk2
      have hne : ¬ k2 = k := fun h0 => hk (h0 ▸ hk2)
      congr 1
      rw [List.filter_filter]
      apply List.filter_congr
      intro a _
      by_cases h : g a = k2
      · simp [h, hne]
      · simp [h]
    simp only [List.map_cons, List.sum_cons, htail,
      ih _ (List.nodup_cons.mp hnd).2 hmem2]
    exact hsplit

/-- Claim C8: for every per-vehicle table, the `n_vehicles` counts of the
by-vehicle_group summary sum to the table's total row count (each row is
counted in exactly one group). -/
theorem c8_group_counts_complete (df : List DerivedRow) :
    ((group_summary df).map (fun row => row.n_vehicles)).sum = df.length := by
  have h := sum_filter_lengths_of_keys (fun r : DerivedRow => r.vehicle_group)
    ((df.map (fun r => r.vehicle_group)).dedup) df (List.nodup_dedup _)
    (fun r hr => List.mem_dedup.mpr (List.mem_map_of_mem _ hr))
  simpa [group_summary, List.map_map, Function.comp] using h

/-! ## Facts about the loaders and the main pipeline -/

/-- When both sources are nonempty and the `id` column exists, the 50-50
loader succeeds with the positional left join. -/
lemma load_5050_ok (trip : List TripAttrs) (em : List EmAttrs)
    (h1 : trip ≠ []) (h2 : em ≠ []) (h3 : trip.any (fun t => t.id.isSome) = true) :
    FiftyFifty.load_tripinfo_with_emissions trip em = .ok (FiftyFifty.joinedRows trip em) := by
  unfold FiftyFifty.load_tripinfo_with_emissions
  rw [if_neg (by simp [List.isEmpty_iff]; exact h1), if_neg (by simp [h3]),
    if_neg (by simp [List.isEmpty_iff]; exact h2)]

/-- When both sources are nonempty, the Baseline loader succeeds with the
positional left join. -/
lemma load_baseline_ok (trip : List TripAttrs) (em : List EmAttrs)
    (h1 : trip ≠ []) (h2 : em ≠ []) :
    Baseline.load_tripinfo_with_emissions trip em = .ok (Baseline.joinedRows trip em) := by
  unfold Baseline.load_tripinfo_with_emissions
  rw [if_neg (by simp [List.isEmpty_iff]; exact h1),
    if_neg (by simp [List.isEmpty_iff]; exact h2)]

/-- The positional left join yields exactly one row per tripinfo record,
whatever the emissions row count. -/
lemma joinedRows_5050_length (trip : List TripAttrs) (em : List EmAttrs) :
    (FiftyFifty.joinedRows trip em).length = trip.length := by
  simp [FiftyFifty.joinedRows]

/-- Baseline version of `joinedRows_5050_length`. -/
lemma joinedRows_baseline_length (trip : List TripAttrs) (em : List EmAttrs) :
    (Baseline.joinedRows trip em).length = trip.length := by
  simp [Baseline.joinedRows]

/-- When every tripinfo record carries an id, no joined row has a missing
id cell. -/
lemma joined_no_missing_id (trip : List TripAttrs) (em : List EmAttrs)
    (h3 : ∀ t ∈ trip, t.id.isSome) :
    (FiftyFifty.joinedRows trip em).any (fun r => r.id.isNone) = false := by
  rw [List.any_eq_false]
  intro r hr
  simp only [FiftyFifty.joinedRows, List.mem_map] at hr
  obtain ⟨p, hp, rfl⟩ := hr
  have hpt : p.2 ∈ trip :=
    List.mem_iff_getElem?.mpr ⟨p.1, List.mem_enum_iff_getElem?.mp hp⟩
  show ¬(p.2.id.isNone = true)
  have hs := h3 p.2 hpt
  cases htid : p.2.id with
  | none => rw [htid] at hs; simp at hs
  | some v => simp

/-- Unusable battery data (absent file, unreadable shape, or an empty
total table) contributes no `energy_Wh` to any vehicle. -/
lemma energyForId_of_unusable (bat : Option (List (Attr × Option ℚ)))
    (h : bat.getD [] = []) (vid : String) : energyForId bat vid = none := by
  cases bat with
  | none => rfl
  | some out =>
    cases out with
    | nil => rfl
    | cons p l => simp at h

/-- The by-hub file is skipped exactly when the trucks table is empty. -/
lemma ite_isEmpty_none_iff (l : List TruckRow) (f : List TruckRow → List HubSummaryRow) :
    ((if l.isEmpty then none else some (f l)) = none ↔ l = []) := by
  by_cases h : l = [] <;> simp [h, List.isEmpty_iff]

/-- Claim C1 counterexample: with two tripinfo rows and one emissions row
(differing lengths), neither loader aborts — both return a joined table —
and the whole 50-50 `main` completes successfully, writing its summary
and detail tables; the claimed loud structural failure does not happen. -/
theorem c1_row_count_mismatch_not_fatal :
    mismatchTrip.length = 2 ∧ mismatchEm.length = 1 ∧
    (FiftyFifty.load_tripinfo_with_emissions mismatchTrip mismatchEm).isOk = true ∧
    (Baseline.load_tripinfo_with_emissions mismatchTrip mismatchEm).isOk = true ∧
    (mainRun mismatchTrip mismatchEm none).isOk = true := by
  decide

/-- Claim C1 (amended): the two mandatory record collections are joined
positionally by row index as a left join that silently tolerates
differing lengths: whenever both collections are nonempty (and, in the
50-50 variant, the tripinfo `id` column exists) the load succeeds with
exactly one row per tripinfo record — surplus emissions rows are dropped
and short emissions streams leave missing cells; no abort occurs. -/
theorem c1_positional_left_join (trip : List TripAttrs) (em : List EmAttrs)
    (h1 : trip ≠ []) (h2 : em ≠ []) (h3 : trip.any (fun t => t.id.isSome) = true) :
    (∃ df, FiftyFifty.load_tripinfo_with_emissions trip em = .ok df ∧
      df.length = trip.length) ∧
    (∃ df, Baseline.load_tripinfo_with_emissions trip em = .ok df ∧
      df.length = trip.length) :=
  ⟨⟨FiftyFifty.joinedRows trip em, load_5050_ok trip em h1 h2 h3,
    joinedRows_5050_length trip em⟩,
   ⟨Baseline.joinedRows trip em, load_baseline_ok trip em h1 h2,
    joinedRows_baseline_length trip em⟩⟩

/-- Witness for the amended C1 at the concrete mismatched input. -/
theorem c1_positional_left_join_witness :
    (∃ df, FiftyFifty.load_tripinfo_with_emissions mismatchTrip mismatchEm = .ok df ∧
      df.length = mismatchTrip.length) ∧
    (∃ df, Baseline.load_tripinfo_with_emissions mismatchTrip mismatchEm = .ok df ∧
      df.length = mismatchTrip.length) :=
  c1_positional_left_join mismatchTrip mismatchEm (by decide) (by decide) (by decide)

/-- Claim C9: with the optional battery source absent or unusable, the
50-50 pipeline completes without error, `energy_kWh` is missing on every
vehicle row, and the by-hub summary is emitted exactly when logistics
trucks exist (omitted entirely — not written empty — when none do). -/
theorem c9_missing_energy_source_degraded (trip : List TripAttrs) (em : List EmAttrs)
    (battery : Option BatteryTable)
    (h1 : trip ≠ []) (h2 : em ≠ [])
    (h3 : ∀ t ∈ trip, t.id.isSome)
    (hb : (load_battery_totals battery).getD [] = []) :
    ∃ out, mainRun trip em battery = .ok out ∧
      (∀ v ∈ out.vehicles, v.energy_kWh = none) ∧
      (out.trucks = [] ↔ ∀ v ∈ out.vehicles, v.vehicle_group ≠ "logistics_truck") ∧
      (out.hubSummary = none ↔ out.trucks = []) := by
  have h3' : trip.any (fun t => t.id.isSome) = true := by
    cases trip with
    | nil => exact absurd rfl h1
    | cons t ts =>
      exact List.any_eq_true.mpr ⟨t, List.mem_cons_self t ts, h3 t (List.mem_cons_self t ts)⟩
  have hload := load_5050_ok trip em h1 h2 h3'
  have hnone := joined_no_missing_id trip em h3
  refine ⟨processDf (FiftyFifty.joinedRows trip em) battery, ?_, ?_, ?_, ?_⟩
  · unfold mainRun
    rw [hload]
    simp [hnone]
  · intro v hv
    simp only [processDf] at hv
    obtain ⟨r, hr, rfl⟩ := List.mem_map.mp hv
    rw [show (deriveRow r (energyForId (load_battery_totals battery) (r.id.getD ""))).energy_kWh
        = (energyForId (load_battery_totals battery) (r.id.getD "")).map (fun x => x / 1000)
        from rfl, energyForId_of_unusable _ hb]
    rfl
  · simp only [processDf, List.map_eq_nil_iff, List.filter_eq_nil_iff, decide_eq_true_eq]
  · exact ite_isEmpty_none_iff _ _

/-- Witness for C9: the pipeline run on one logistics truck with no
battery file. -/
theorem c9_missing_energy_source_degraded_witness :
    ∃ out, mainRun c9Trip c9Em none = .ok out ∧
      (∀ v ∈ out.vehicles, v.energy_kWh = none) ∧
      (out.trucks = [] ↔ ∀ v ∈ out.vehicles, v.vehicle_group ≠ "logistics_truck") ∧
      (out.hubSummary = none ↔ out.trucks = []) :=
  c9_missing_energy_source_degraded c9Trip c9Em none (by decide) (by decide)
    (by decide) rfl

/-! ## Facts about the battery loader -/

/-- Sum of a single possibly-missing value. -/
lemma optSum_singleton (v : Option ℚ) : optSum [v] = v := by
  cases v <;> simp [optSum]

/-- Looking a key up (via `find?`) in a key-indexed map image finds its
image. -/
lemma find?_map_key (S : String → Option ℚ) (c0 : String) :
    ∀ l : List String, c0 ∈ l →
      (l.map (fun c => (c, S c))).find? (fun p => decide (p.1 = c0)) = some (c0, S c0) := by
  intro l
  induction l with
  | nil => intro h; simp at h
  | cons a l ih =>
    intro h
    by_cases hac : a = c0
    · subst hac
      simp [List.find?]
    · have hmem : c0 ∈ l := List.mem_of_ne_of_mem (fun h0 => hac h0.symm) h
      have hfalse : (decide (((a, S a) : String × Option ℚ).1 = c0)) = false := by
        simp [hac]
      simp only [List.map_cons, List.find?]
      rw [hfalse]
      exact ih hmem

/-- Evaluating the priority pick on the per-column sums of one group. -/
lemma pickEnergy_map (ecols : List String) (S : String → Option ℚ) :
    pickEnergy ecols (ecols.map (fun c => (c, S c))) =
      (if ecols.contains "energyConsumed" then S "energyConsumed"
       else if ecols.contains "totalEnergyConsumed" then S "totalEnergyConsumed"
       else if ecols.contains "energy" then S "energy"
       else optSum (ecols.map S)) := by
  unfold pickEnergy
  by_cases h1 : ecols.contains "energyConsumed" = true
  · rw [if_pos h1, if_pos h1, find?_map_key S _ _ (List.elem_iff.mp h1)]
    rfl
  · rw [if_neg h1, if_neg h1]
    by_cases h2 : ecols.contains "totalEnergyConsumed" = true
    · rw [if_pos h2, if_pos h2, find?_map_key S _ _ (List.elem_iff.mp h2)]
      rfl
    · rw [if_neg h2, if_neg h2]
      by_cases h3 : ecols.contains "energy" = true
      · rw [if_pos h3, if_pos h3, find?_map_key S _ _ (List.elem_iff.mp h3)]
        rfl
      · rw [if_neg h3, if_neg h3, List.map_map]
        rfl

/-- Filtering an association list with duplicate-free keys by its head
key yields exactly the head entry. -/
lemma filter_key_eq_singleton (p : Attr × Option ℚ) (l : List (Attr × Option ℚ))
    (hk : p.1 ∉ l.map Prod.fst) :
    (p :: l).filter (fun q => decide (q.1 = p.1)) = [p] := by
  have h2 : l.filter (fun q => decide (q.1 = p.1)) = [] :=
    List.filter_eq_nil_iff.mpr fun q hq => by
      simp only [decide_eq_true_eq]
      intro h0
      exact hk (h0 ▸ List.mem_map_of_mem Prod.fst hq)
  rw [List.filter_cons_of_pos (by simp), h2]

/-- The final re-grouping is the identity on a table whose keys are
already duplicate-free. -/
lemma regroupById_of_nodup :
    ∀ out : List (Attr × Option ℚ), (out.map Prod.fst).Nodup → regroupById out = out := by
  intro out
  induction out with
  | nil => intro _; rfl
  | cons p l ih =>
    intro h
    rw [List.map_cons, List.nodup_cons] at h
    obtain ⟨hk, hnd⟩ := h
    have hddp : (p.1 :: l.map Prod.fst).Nodup := List.nodup_cons.mpr ⟨hk, hnd⟩
    unfold regroupById
    rw [List.map_cons, List.Nodup.dedup hddp, List.map_cons]
    congr 1
    · rw [filter_key_eq_singleton p l hk]
      simp [optSum_singleton]
    · have ih2 := ih hnd
      unfold regroupById at ih2
      rw [List.Nodup.dedup hnd] at ih2
      calc (l.map Prod.fst).map
            (fun k => (k, optSum (((p :: l).filter (fun q => decide (q.1 = k))).map Prod.snd)))
          = (l.map Prod.fst).map
            (fun k => (k, optSum ((l.filter (fun q => decide (q.1 = k))).map Prod.snd))) := by
            apply List.map_congr_left
            intro k hkl
            have hne : ¬(p.1 = k) := fun h0 => hk (h0 ▸ hkl)
            rw [List.filter_cons_of_neg (by simpa using hne)]
        _ = l := ih2

/-- Claim C4: on a battery source with a discoverable identifier column
and at least one recognised energy column, `load_battery_totals` returns
one row per distinct identifier value (no duplicates, no drops), whose
total is exactly the specification's two-phase value: per-column sums per
id, then the `energyConsumed` > `totalEnergyConsumed` > `energy` >
sum-of-all priority selection. -/
theorem c4_battery_totals_priority (t : BatteryTable) (idc : String)
    (h1 : t ≠ []) (h2 : idColOf t = some idc) (h3 : energyColsOf t ≠ []) :
    ∃ out, load_battery_totals (some t) = some out ∧
      (out.map Prod.fst).Nodup ∧
      (∀ k : Attr, (∃ e, (k, e) ∈ out) ↔ k ∈ presentIds t idc) ∧
      (∀ p ∈ out, p.2 = specEnergyFor t idc p.1) := by
  have hne : ¬(t.isEmpty = true) := by simp [List.isEmpty_iff]; exact h1
  have hec : ¬((energyColsOf t).isEmpty = true) := by simp [List.isEmpty_iff]; exact h3
  refine ⟨(presentIds t idc).map (fun k => (k, pickEnergy (energyColsOf t)
      ((energyColsOf t).map (fun c => (c, colSumFor t idc k c))))), ?_, ?_, ?_, ?_⟩
  · show load_battery_totals (some t) = _
    simp only [load_battery_totals]
    rw [if_neg hne, h2]
    simp only [Option.some_bind]
    rw [if_neg hec, List.map_map]
    rw [regroupById_of_nodup _ (by
      simp only [List.map_map]
      have : (Prod.fst ∘ ((fun p : Attr × List (String × Option ℚ) =>
          (p.1, pickEnergy (energyColsOf t) p.2)) ∘ (fun k => (k,
          (energyColsOf t).map (fun c => (c, colSumFor t idc k c)))))) = id := rfl
      rw [this, List.map_id]
      exact List.nodup_dedup _)]
    rfl
  · rw [List.map_map]
    have : (Prod.fst ∘ fun k => (k, pickEnergy (energyColsOf t)
        ((energyColsOf t).map (fun c => (c, colSumFor t idc k c))))) = id := rfl
    rw [this, List.map_id]
    exact List.nodup_dedup _
  · intro k
    constructor
    · rintro ⟨e, he⟩
      obtain ⟨k2, hk2, heq⟩ := List.mem_map.mp he
      have hfst := congrArg Prod.fst heq
      simp only at hfst
      exact hfst ▸ hk2
    · intro hk
      exact ⟨_, List.mem_map_of_mem _ hk⟩
  · intro p hp
    obtain ⟨k, hkids, rfl⟩ := List.mem_map.mp hp
    show pickEnergy (energyColsOf t) ((energyColsOf t).map
      (fun c => (c, colSumFor t idc k c))) = specEnergyFor t idc k
    rw [pickEnergy_map]
    rfl

/-- Witness for C4 on the concrete `c4Battery` table. -/
theorem c4_battery_totals_priority_witness :
    ∃ out, load_battery_totals (some c4Battery) = some out ∧
      (out.map Prod.fst).Nodup ∧
      (∀ k : Attr, (∃ e, (k, e) ∈ out) ↔ k ∈ presentIds c4Battery "vehicle") ∧
      (∀ p ∈ out, p.2 = specEnergyFor c4Battery "vehicle" p.1) :=
  c4_battery_totals_priority c4Battery "vehicle" (by decide) (by decide) (by decide)

end TrafficSim
